import Mathlib

/-!
Verification of the adaptive graphics renderer selection and particle
simulation engine of the who-i-am portfolio repository.

The development shallowly embeds, over the rationals:
  - the WGSL compute-shader particle update rule of the three GPU backends
    (WebGPUSnowfield, WebGPULaserfield, WebGPUStarfield),
  - the GraphicsManager renderer-selection decision procedure (two source
    versions exist in the repository and both are embedded),
  - the performance-monitor downgrade logic,
  - the battery-query refinement of the capability snapshot,
  - the storage-buffer sizing and population handling of the CPU backend.

GPU 32-bit floats are modelled as rationals; the shader sine is passed in
as an abstract function `sinF : Q -> Q`, since the only fact the proofs
need about it is none at all: the `fract` wrapper alone forces the
pseudo-random draws into [0,1).
-/

/-- A 3-component vector of rationals, modelling WGSL vec3 f32. -/
structure Vec3 where
  x : ℚ
  y : ℚ
  z : ℚ
deriving DecidableEq, Repr

/-- The Snow/Laser particle record of the WGSL shaders
(webgpu-snowfield.ts lines 80-87, webgpu-laserfield.ts lines 80-87):
position, size, velocity, life, color, and a final float slot that the
snowfield names a pad and the laserfield names twinkle. -/
structure SnowParticle where
  position : Vec3
  size : ℚ
  velocity : Vec3
  life : ℚ
  color : Vec3
  twinkle : ℚ
deriving DecidableEq, Repr

/-- The Star particle record of the WGSL starfield shader
(unnamed part_004 lines 77-82): position, velocity, life, size. -/
structure StarParticle where
  position : Vec3
  velocity : Vec3
  life : ℚ
  size : ℚ
deriving DecidableEq, Repr

/-- The uniform block written each frame: elapsed time, canvas resolution,
normalized mouse position, and the particle count (held as u32 for the
guard comparison of the shader). -/
structure Uniforms where
  time : ℚ
  resolutionX : ℚ
  resolutionY : ℚ
  mousePosX : ℚ
  mousePosY : ℚ
  count : ℕ
deriving DecidableEq, Repr

/-- WGSL fract: the fractional part x - floor x, always in [0,1). -/
def fract (x : ℚ) : ℚ := x - ⌊x⌋

/-- The pseudo-random draw of the shaders, fract(sin(seed) * 43758.5453), with the
GPU sine supplied as sinF. -/
def hashRand (sinF : ℚ → ℚ) (seed : ℚ) : ℚ := fract (sinF seed * (437585453 / 10000))

/-- Fixed shader timestep dt = 0.016. -/
def dt : ℚ := 16 / 1000

/-- One Euler step of the position: position + velocity * dt. -/
def stepPosition (position velocity : Vec3) : Vec3 :=
  ⟨position.x + velocity.x * dt, position.y + velocity.y * dt, position.z + velocity.z * dt⟩

/-- The respawn test of all three compute shaders:
position.z > 1.0, or |position.x| > 2.0, or |position.y| > 2.0. -/
def offScreen (p : Vec3) : Bool :=
  decide (p.z > 1) || decide (|p.x| > 2) || decide (|p.y| > 2)

/-- Mouse attraction applied to the velocity before the respawn test:
mouseNorm = (mousePos * 2 - 1) * vec2(1,-1), velocity.xy += mouseNorm * 0.001. -/
def attract (u : Uniforms) (v : Vec3) : Vec3 :=
  ⟨v.x + (u.mousePosX * 2 - 1) * 1 * (1 / 1000),
   v.y + (u.mousePosY * 2 - 1) * (-1) * (1 / 1000),
   v.z⟩

/-- Fresh respawn depth of the snow and laser shaders:
0.3 + fract(sin(index * 45.678) * 43758.5453) * 0.7. -/
def newDepth (sinF : ℚ → ℚ) (index : ℕ) : ℚ :=
  3 / 10 + hashRand sinF ((index : ℚ) * (45678 / 1000)) * (7 / 10)

/-- Fresh respawn x of the snow and laser shaders:
(fract(sin(index * 12.9898) * 43758.5453) - 0.5) * 2.0 * newDepth. -/
def respawnX (sinF : ℚ → ℚ) (index : ℕ) : ℚ :=
  (hashRand sinF ((index : ℚ) * (129898 / 10000)) - 1 / 2) * 2 * newDepth sinF index

/-- Fresh respawn y of the snow and laser shaders:
(fract(sin(index * 78.233) * 43758.5453) - 0.5) * 2.0 * newDepth. -/
def respawnY (sinF : ℚ → ℚ) (index : ℕ) : ℚ :=
  (hashRand sinF ((index : ℚ) * (78233 / 1000)) - 1 / 2) * 2 * newDepth sinF index

/-- Fresh respawn forward velocity of all three shaders:
0.1 + fract(sin(index * 91.3737) * 43758.5453) * 0.05. -/
def respawnVZ (sinF : ℚ → ℚ) (index : ℕ) : ℚ :=
  1 / 10 + hashRand sinF ((index : ℚ) * (913737 / 10000)) * (5 / 100)

/-- Fresh respawn x of the starfield shader (unnamed part_004 line 116):
(fract(sin(index * 12.9898) * 43758.5453) - 0.5) * 4.0. -/
def starRespawnX (sinF : ℚ → ℚ) (index : ℕ) : ℚ :=
  (hashRand sinF ((index : ℚ) * (129898 / 10000)) - 1 / 2) * 4

/-- Fresh respawn y of the starfield shader (unnamed part_004 line 117):
(fract(sin(index * 78.233) * 43758.5453) - 0.5) * 4.0. -/
def starRespawnY (sinF : ℚ → ℚ) (index : ℕ) : ℚ :=
  (hashRand sinF ((index : ℚ) * (78233 / 1000)) - 1 / 2) * 4

/-- computeMain of the WebGPUSnowfield compute shader
(webgpu-snowfield.ts lines 100-131): guard on index >= count; advance the
position by velocity * dt; add the mouse attraction to velocity.xy; if the
advanced position is off screen, overwrite position, velocity and life
with the per-index respawn values, else keep the advanced state. -/
def snowComputeStep (sinF : ℚ → ℚ) (u : Uniforms) (index : ℕ) (snow : SnowParticle) : SnowParticle :=
  if u.count ≤ index then snow
  else if offScreen (stepPosition snow.position snow.velocity) then
    { snow with
        position := ⟨respawnX sinF index, respawnY sinF index, newDepth sinF index⟩
        velocity := ⟨0, 0, respawnVZ sinF index⟩
        life := 1 }
  else
    { snow with
        position := stepPosition snow.position snow.velocity
        velocity := attract u snow.velocity }

/-- computeMain of the WebGPULaserfield compute shader
(webgpu-laserfield.ts lines 100-131). Its body is line-for-line the update
rule of the snowfield shader; the source there refers to the count
uniform as laserCount and writes the updated record back through the
identifiers stars and star, even though the declared names are starCount,
lasers and laser - we read those as the evident references to the count
field and to the particle being updated. -/
def laserComputeStep (sinF : ℚ → ℚ) (u : Uniforms) (index : ℕ) (laser : SnowParticle) : SnowParticle :=
  if u.count ≤ index then laser
  else if offScreen (stepPosition laser.position laser.velocity) then
    { laser with
        position := ⟨respawnX sinF index, respawnY sinF index, newDepth sinF index⟩
        velocity := ⟨0, 0, respawnVZ sinF index⟩
        life := 1 }
  else
    { laser with
        position := stepPosition laser.position laser.velocity
        velocity := attract u laser.velocity }

/-- computeMain of the WebGPUStarfield compute shader
(unnamed part_004 lines 95-125): the same update rule, but the respawn
branch sets x and y in [-2,2] independent of depth, and depth to 0. -/
def starComputeStep (sinF : ℚ → ℚ) (u : Uniforms) (index : ℕ) (star : StarParticle) : StarParticle :=
  if u.count ≤ index then star
  else if offScreen (stepPosition star.position star.velocity) then
    { star with
        position := ⟨starRespawnX sinF index, starRespawnY sinF index, 0⟩
        velocity := ⟨0, 0, respawnVZ sinF index⟩
        life := 1 }
  else
    { star with
        position := stepPosition star.position star.velocity
        velocity := attract u star.velocity }

/-- The renderer tier, RendererType of graphics.ts (unnamed part_001 line 10). -/
inductive RendererType where
  | none
  | css
  | webgl
  | webgpu
deriving DecidableEq, Repr

/-- DeviceCapabilities of graphics.ts (unnamed part_001 lines 1-8). The
batteryLevel field is optional; Option.none models undefined. The
GraphicsManager version in unnamed part_003 never reads hasGoodGPU. -/
structure DeviceCapabilities where
  isLowEnd : Bool
  isMobile : Bool
  supportsWebGPU : Bool
  prefersReducedMotion : Bool
  hasGoodGPU : Bool
  batteryLevel : Option ℚ
deriving DecidableEq, Repr

/-- Outcome of an awaited backend init call: resolved true, resolved
false, or threw/rejected. -/
inductive InitOutcome where
  | success
  | failure
  | thrown
deriving DecidableEq, Repr

/-- Result of running selectRenderer: either a renderer was assigned to
currentRenderer, or an uncaught exception escaped the method (possible in
the unnamed part_003 version when initWebGLStarfield throws). -/
inductive SelectOutcome where
  | selected (r : RendererType)
  | aborted
deriving DecidableEq, Repr

/-- A selection outcome together with the ordered list of tiers whose
init routine was invoked along the way. -/
structure SelectionResult where
  outcome : SelectOutcome
  inits : List RendererType
deriving DecidableEq, Repr

/-- The low-battery test of selectRenderer:
batteryLevel !== undefined && batteryLevel < 0.15. -/
def lowBattery : Option ℚ → Bool
  | some b => decide (b < 3 / 20)
  | Option.none => false

/-- GraphicsManager.selectRenderer of unnamed part_003 (lines 53-100) as a
pure decision function. gpu is the outcome of the awaited
initWebGPUSpritefield call (a thrown promise is caught and treated like a
false result); webglThrows says whether the awaited initWebGLStarfield
call throws, in which case the exception escapes selectRenderer before
currentRenderer is assigned (modelled as aborted). inits records which
tiers had their init routine invoked, in source order. -/
def selectRenderer (c : DeviceCapabilities) (gpu : InitOutcome) (webglThrows : Bool) :
    SelectionResult :=
  if c.prefersReducedMotion then ⟨SelectOutcome.selected RendererType.none, []⟩
  else if lowBattery c.batteryLevel then
    ⟨SelectOutcome.selected RendererType.css, [RendererType.css]⟩
  else if c.supportsWebGPU && !c.isLowEnd then
    if gpu = InitOutcome.success then
      ⟨SelectOutcome.selected RendererType.webgpu, [RendererType.webgpu]⟩
    else if c.isMobile && (!c.supportsWebGPU || c.isLowEnd) then
      ⟨SelectOutcome.selected RendererType.css, [RendererType.webgpu, RendererType.css]⟩
    else if webglThrows then
      ⟨SelectOutcome.aborted, [RendererType.webgpu, RendererType.webgl]⟩
    else
      ⟨SelectOutcome.selected RendererType.webgl, [RendererType.webgpu, RendererType.webgl]⟩
  else
    if c.isMobile && (!c.supportsWebGPU || c.isLowEnd) then
      ⟨SelectOutcome.selected RendererType.css, [RendererType.css]⟩
    else if webglThrows then
      ⟨SelectOutcome.aborted, [RendererType.webgl]⟩
    else
      ⟨SelectOutcome.selected RendererType.webgl, [RendererType.webgl]⟩

/-- GraphicsManager.selectRenderer of src/types/graphics-manager.ts
(lines 92-145). This version additionally requires hasGoodGPU on the GPU
path, guards the WebGL tier by (not mobile, or good GPU), and catches a
throwing initWebGLStarfield, falling through to the css tier. -/
def selectRendererTS (c : DeviceCapabilities) (gpu : InitOutcome) (webglThrows : Bool) :
    SelectionResult :=
  if c.prefersReducedMotion then ⟨SelectOutcome.selected RendererType.none, []⟩
  else if lowBattery c.batteryLevel then
    ⟨SelectOutcome.selected RendererType.css, [RendererType.css]⟩
  else if c.supportsWebGPU && c.hasGoodGPU && !c.isLowEnd then
    if gpu = InitOutcome.success then
      ⟨SelectOutcome.selected RendererType.webgpu, [RendererType.webgpu]⟩
    else if !c.isMobile || c.hasGoodGPU then
      if webglThrows then
        ⟨SelectOutcome.selected RendererType.css,
          [RendererType.webgpu, RendererType.webgl, RendererType.css]⟩
      else
        ⟨SelectOutcome.selected RendererType.webgl, [RendererType.webgpu, RendererType.webgl]⟩
    else
      ⟨SelectOutcome.selected RendererType.css, [RendererType.webgpu, RendererType.css]⟩
  else
    if !c.isMobile || c.hasGoodGPU then
      if webglThrows then
        ⟨SelectOutcome.selected RendererType.css, [RendererType.webgl, RendererType.css]⟩
      else
        ⟨SelectOutcome.selected RendererType.webgl, [RendererType.webgl]⟩
    else
      ⟨SelectOutcome.selected RendererType.css, [RendererType.css]⟩

/-- The three GPU simulation variants. -/
inductive GPUVariant where
  | starfield
  | snowfield
  | laserfield
deriving DecidableEq, Repr

/-- GraphicsManager.initWebGPUSpritefield of unnamed part_003
(lines 102-112): random is the integer parsed from Math.random() * 100, a
value in 0..99; random < 50 picks the laserfield, otherwise the
snowfield. The starfield branch is commented out in the source. -/
def chooseVariant (random : ℕ) : GPUVariant :=
  if random < 50 then GPUVariant.laserfield else GPUVariant.snowfield

/-- GraphicsManager.initWebGPUSpritefield of src/types/graphics-manager.ts
(lines 147-154): random < 50 picks the starfield, otherwise the
snowfield; no laserfield branch exists in this version. -/
def chooseVariantTS (random : ℕ) : GPUVariant :=
  if random < 50 then GPUVariant.starfield else GPUVariant.snowfield

/-- Outcome of the awaited navigator.getBattery() call: resolved with a
numeric level (some l), resolved with a falsy battery object or a
non-numeric level (Option.none), or rejected/thrown. -/
inductive BatteryQuery where
  | resolved (level : Option ℚ)
  | rejected
deriving DecidableEq, Repr

/-- The battery block of GraphicsManager.init (unnamed part_003 lines
36-46, graphics-manager.ts lines 74-85): a resolved query updates
batteryLevel only when the level is a number strictly greater than 0; a
rejected query sets batteryLevel to 1. The block only runs when
navigator.getBattery exists, in which case detectCapabilities left
batteryLevel undefined (part_003 line 30). -/
def updateBatteryLevel (current : Option ℚ) (q : BatteryQuery) : Option ℚ :=
  match q with
  | BatteryQuery.resolved (some l) => if 0 < l then some l else current
  | BatteryQuery.resolved Option.none => current
  | BatteryQuery.rejected => some 1

/-- State tracked across performance-monitor windows: the
currentRenderer field, the tier whose container showRenderer last made
visible (the backend actually running), and instrumentation counting
destroy and init calls made by the fallback routines. -/
structure MonitorState where
  currentRenderer : RendererType
  shownTier : RendererType
  destroyCount : ℕ
  webglInitCount : ℕ
  cssInitCount : ℕ
deriving DecidableEq, Repr

/-- GraphicsManager.fallbackToWebGL (unnamed part_003 lines 312-317):
destroys the current backend instance and runs initWebGLStarfield, which
shows the webgl tier; it never assigns currentRenderer. -/
def fallbackToWebGL (s : MonitorState) : MonitorState :=
  { s with
      shownTier := RendererType.webgl
      destroyCount := s.destroyCount + 1
      webglInitCount := s.webglInitCount + 1 }

/-- GraphicsManager.fallbackToCSS (unnamed part_003 lines 319-324):
destroys the current backend instance and runs initCSSStarfield, which
shows the css tier; it never assigns currentRenderer. -/
def fallbackToCSS (s : MonitorState) : MonitorState :=
  { s with
      shownTier := RendererType.css
      destroyCount := s.destroyCount + 1
      cssInitCount := s.cssInitCount + 1 }

/-- One elapsed 5-second window of setupPerformanceMonitoring (unnamed
part_003 lines 288-302): fps < 30 with currentRenderer webgpu triggers
fallbackToWebGL, else fps < 20 with currentRenderer webgl triggers
fallbackToCSS, else nothing happens. -/
def monitorWindow (s : MonitorState) (fps : ℚ) : MonitorState :=
  if fps < 30 ∧ s.currentRenderer = RendererType.webgpu then fallbackToWebGL s
  else if fps < 20 ∧ s.currentRenderer = RendererType.webgl then fallbackToCSS s
  else s

/-- Per-particle byte stride of the snowBuffer allocation
(webgpu-snowfield.ts line 227: snowCount * 48). -/
def snowStride : ℕ := 48

/-- Per-particle byte stride of the laserBuffer allocation
(webgpu-laserfield.ts line 273: laserCount * 48). -/
def laserStride : ℕ := 48

/-- Per-particle byte stride of the starBuffer allocation
(unnamed part_004 line 206: starCount * 32). -/
def starStride : ℕ := 32

/-- Size in bytes of the snowfield storage buffer. -/
def snowBufferSize (snowCount : ℕ) : ℕ := snowCount * 48

/-- Size in bytes of the laserfield storage buffer. -/
def laserBufferSize (laserCount : ℕ) : ℕ := laserCount * 48

/-- Size in bytes of the starfield storage buffer. -/
def starBufferSize (starCount : ℕ) : ℕ := starCount * 32

/-- One CPU-backend star of webgl-starfield (x, y, z), per StarInterface. -/
structure StarState where
  x : ℚ
  y : ℚ
  z : ℚ
deriving DecidableEq, Repr

/-- The Star(0, 0, 0) allocation used by the WebGLStarfield constructor,
handleResize and setStarCount. -/
def starZero : StarState := ⟨0, 0, 0⟩

/-- The star count re-derived by WebGLStarfield.handleResize
(unnamed part_002 line 93): 250 below the 768px viewport threshold, else
800. -/
def resizeStarCount (innerWidth : ℕ) : ℕ := if innerWidth < 768 then 250 else 800

/-- The star-array reallocation of WebGLStarfield.handleResize (unnamed
part_002 lines 93-96): when the stored population size differs from the
re-derived count, the whole array is replaced by fresh zero stars. -/
def handleResizeStars (stars : List StarState) (innerWidth : ℕ) : List StarState :=
  if stars.length ≠ resizeStarCount innerWidth then
    List.replicate (resizeStarCount innerWidth) starZero
  else stars

/-- The per-frame update loop of WebGLStarfield.frame (unnamed part_002
lines 187-190): every star is updated in place; the Star.update body
lives in star.ts, which is not among the sources, so the update function
is kept abstract. -/
def frameStars (update : StarState → StarState) (stars : List StarState) : List StarState :=
  stars.map update

/-- The GPU compute dispatch over the particle buffer: every slot is
rewritten in place by the per-index compute step. -/
def gpuDispatch (step : ℕ → SnowParticle → SnowParticle) (ps : List SnowParticle) :
    List SnowParticle :=
  ps.mapIdx fun i p => step i p

/-- The particle-count clamp of the GPU backend constructors
(webgpu-snowfield.ts line 29 and the matching lines of the other two
variants): min(requested, innerWidth < 768 ? 400 : 800). -/
def clampedCount (requested innerWidth : ℕ) : ℕ :=
  min requested (if innerWidth < 768 then 400 else 800)

/-- The bounding-box-in-depth respawn invariant claimed by the spec:
0.3 <= z <= 1, |x| <= z, |y| <= z, life = 1. -/
abbrev respawnInvariant (p : SnowParticle) : Prop :=
  3 / 10 ≤ p.position.z ∧ p.position.z ≤ 1 ∧
    |p.position.x| ≤ p.position.z ∧ |p.position.y| ≤ p.position.z ∧ p.life = 1

/-- The fractional part is nonnegative. -/
theorem fract_nonneg (x : ℚ) : 0 ≤ fract x := by
  unfold fract
  linarith [Int.floor_le x]

/-- The fractional part is below one. -/
theorem fract_lt_one (x : ℚ) : fract x < 1 := by
  unfold fract
  linarith [Int.lt_floor_add_one x]

/-- The shader pseudo-random draw is nonnegative, whatever the sine does. -/
theorem hashRand_nonneg (sinF : ℚ → ℚ) (s : ℚ) : 0 ≤ hashRand sinF s :=
  fract_nonneg _

/-- The shader pseudo-random draw is below one, whatever the sine does. -/
theorem hashRand_lt_one (sinF : ℚ → ℚ) (s : ℚ) : hashRand sinF s < 1 :=
  fract_lt_one _

/-- The fresh respawn depth is at least 0.3. -/
theorem newDepth_lb (sinF : ℚ → ℚ) (i : ℕ) : 3 / 10 ≤ newDepth sinF i := by
  have h := hashRand_nonneg sinF ((i : ℚ) * (45678 / 1000))
  unfold newDepth
  linarith

/-- The fresh respawn depth is at most 1. -/
theorem newDepth_ub (sinF : ℚ → ℚ) (i : ℕ) : newDepth sinF i ≤ 1 := by
  have h := hashRand_lt_one sinF ((i : ℚ) * (45678 / 1000))
  unfold newDepth
  linarith

/-- A draw h in [0,1) recentred and scaled by twice a nonnegative depth
stays within that depth in absolute value. -/
theorem abs_centered_scaled_le (h d : ℚ) (h0 : 0 ≤ h) (h1 : h < 1) (d0 : 0 ≤ d) :
    |(h - 1 / 2) * 2 * d| ≤ d := by
  rw [abs_le]
  constructor
  · nlinarith [mul_nonneg h0 d0]
  · nlinarith [mul_nonneg (by linarith : (0 : ℚ) ≤ 1 - h) d0]

/-- The respawn x of the snow and laser shaders is bounded by the fresh
depth in absolute value. -/
theorem abs_respawnX_le (sinF : ℚ → ℚ) (i : ℕ) : |respawnX sinF i| ≤ newDepth sinF i := by
  unfold respawnX
  exact abs_centered_scaled_le _ _ (hashRand_nonneg _ _) (hashRand_lt_one _ _)
    (le_trans (by norm_num) (newDepth_lb sinF i))

/-- The respawn y of the snow and laser shaders is bounded by the fresh
depth in absolute value. -/
theorem abs_respawnY_le (sinF : ℚ → ℚ) (i : ℕ) : |respawnY sinF i| ≤ newDepth sinF i := by
  unfold respawnY
  exact abs_centered_scaled_le _ _ (hashRand_nonneg _ _) (hashRand_lt_one _ _)
    (le_trans (by norm_num) (newDepth_lb sinF i))

/-- The respawn x of the starfield shader is bounded by 2 in absolute value. -/
theorem abs_starRespawnX_le (sinF : ℚ → ℚ) (i : ℕ) : |starRespawnX sinF i| ≤ 2 := by
  have h0 := hashRand_nonneg sinF ((i : ℚ) * (129898 / 10000))
  have h1 := hashRand_lt_one sinF ((i : ℚ) * (129898 / 10000))
  unfold starRespawnX
  rw [abs_le]
  constructor <;> linarith

/-- The respawn y of the starfield shader is bounded by 2 in absolute value. -/
theorem abs_starRespawnY_le (sinF : ℚ → ℚ) (i : ℕ) : |starRespawnY sinF i| ≤ 2 := by
  have h0 := hashRand_nonneg sinF ((i : ℚ) * (78233 / 1000))
  have h1 := hashRand_lt_one sinF ((i : ℚ) * (78233 / 1000))
  unfold starRespawnY
  rw [abs_le]
  constructor <;> linarith

/-- When the guard passes and the advanced position is off screen, the
snowfield compute step lands on the respawn record. -/
theorem snowComputeStep_respawn (sinF : ℚ → ℚ) (u : Uniforms) (i : ℕ) (p : SnowParticle)
    (hi : i < u.count) (hp : offScreen (stepPosition p.position p.velocity) = true) :
    snowComputeStep sinF u i p =
      { p with
          position := ⟨respawnX sinF i, respawnY sinF i, newDepth sinF i⟩
          velocity := ⟨0, 0, respawnVZ sinF i⟩
          life := 1 } := by
  unfold snowComputeStep
  rw [if_neg (not_le.mpr hi), if_pos hp]

/-- When the guard passes and the advanced position is off screen, the
laserfield compute step lands on the respawn record. -/
theorem laserComputeStep_respawn (sinF : ℚ → ℚ) (u : Uniforms) (i : ℕ) (p : SnowParticle)
    (hi : i < u.count) (hp : offScreen (stepPosition p.position p.velocity) = true) :
    laserComputeStep sinF u i p =
      { p with
          position := ⟨respawnX sinF i, respawnY sinF i, newDepth sinF i⟩
          velocity := ⟨0, 0, respawnVZ sinF i⟩
          life := 1 } := by
  unfold laserComputeStep
  rw [if_neg (not_le.mpr hi), if_pos hp]

/-- When the guard passes and the advanced position is off screen, the
starfield compute step lands on its respawn record. -/
theorem starComputeStep_respawn (sinF : ℚ → ℚ) (u : Uniforms) (i : ℕ) (q : StarParticle)
    (hi : i < u.count) (hq : offScreen (stepPosition q.position q.velocity) = true) :
    starComputeStep sinF u i q =
      { q with
          position := ⟨starRespawnX sinF i, starRespawnY sinF i, 0⟩
          velocity := ⟨0, 0, respawnVZ sinF i⟩
          life := 1 } := by
  unfold starComputeStep
  rw [if_neg (not_le.mpr hi), if_pos hq]

/-- C1 (amended). Whenever the respawn branch of the compute shader fires,
the Snowfield and Laserfield variants produce a state with
0.3 <= position.z <= 1, |position.x| <= position.z,
|position.y| <= position.z and life = 1; the Starfield variant instead
produces position.z = 0, |position.x| <= 2, |position.y| <= 2 and
life = 1, so the bounding-box-in-depth invariant holds only for the
Snowfield and Laserfield backends. -/
theorem c1_bounded_respawn (sinF : ℚ → ℚ) (u : Uniforms) (i : ℕ) (p : SnowParticle)
    (q : StarParticle) (hi : i < u.count)
    (hp : offScreen (stepPosition p.position p.velocity) = true)
    (hq : offScreen (stepPosition q.position q.velocity) = true) :
    respawnInvariant (snowComputeStep sinF u i p) ∧
      respawnInvariant (laserComputeStep sinF u i p) ∧
      ((starComputeStep sinF u i q).position.z = 0 ∧
        |(starComputeStep sinF u i q).position.x| ≤ 2 ∧
        |(starComputeStep sinF u i q).position.y| ≤ 2 ∧
        (starComputeStep sinF u i q).life = 1) := by
  rw [snowComputeStep_respawn sinF u i p hi hp, laserComputeStep_respawn sinF u i p hi hp,
    starComputeStep_respawn sinF u i q hi hq]
  exact ⟨⟨newDepth_lb sinF i, newDepth_ub sinF i, abs_respawnX_le sinF i,
      abs_respawnY_le sinF i, rfl⟩,
    ⟨newDepth_lb sinF i, newDepth_ub sinF i, abs_respawnX_le sinF i,
      abs_respawnY_le sinF i, rfl⟩,
    rfl, abs_starRespawnX_le sinF i, abs_starRespawnY_le sinF i, rfl⟩

/-- C1 counterexample to the claim as stated: the spec scenario particle
at position (0,0,1.5) is off screen and respawns, but under the Starfield
variant it lands at x = -2, z = 0, violating 0.3 <= z and |x| <= z. At
index 0 every sine argument is 0 and sin 0 = 0, so the constant-zero sine
stand-in agrees at this input with any model of the GPU sine. -/
theorem c1_star_violates :
    offScreen (stepPosition (⟨0, 0, 3 / 2⟩ : Vec3) (⟨0, 0, 0⟩ : Vec3)) = true ∧
      (starComputeStep (fun _ => 0) ⟨0, 1, 1, 0, 0, 1⟩ 0
          ⟨⟨0, 0, 3 / 2⟩, ⟨0, 0, 0⟩, 1, 1⟩).position.z = 0 ∧
      (starComputeStep (fun _ => 0) ⟨0, 1, 1, 0, 0, 1⟩ 0
          ⟨⟨0, 0, 3 / 2⟩, ⟨0, 0, 0⟩, 1, 1⟩).position.x = -2 ∧
      ¬(3 / 10 ≤ (starComputeStep (fun _ => 0) ⟨0, 1, 1, 0, 0, 1⟩ 0
          ⟨⟨0, 0, 3 / 2⟩, ⟨0, 0, 0⟩, 1, 1⟩).position.z) ∧
      ¬(|(starComputeStep (fun _ => 0) ⟨0, 1, 1, 0, 0, 1⟩ 0
            ⟨⟨0, 0, 3 / 2⟩, ⟨0, 0, 0⟩, 1, 1⟩).position.x| ≤
          (starComputeStep (fun _ => 0) ⟨0, 1, 1, 0, 0, 1⟩ 0
            ⟨⟨0, 0, 3 / 2⟩, ⟨0, 0, 0⟩, 1, 1⟩).position.z) := by
  refine ⟨?_, ?_, ?_, ?_, ?_⟩ <;>
    norm_num [starComputeStep, starRespawnX, offScreen, stepPosition, dt, hashRand, fract]

/-- C1 witness: the amended respawn invariant evaluated at index 0 of a
one-particle population whose particle sits off screen at depth 1.5. -/
theorem c1_bounded_respawn_witness :
    (0 < 1 ∧ offScreen (stepPosition (⟨0, 0, 3 / 2⟩ : Vec3) (⟨0, 0, 0⟩ : Vec3)) = true) ∧
      (respawnInvariant (snowComputeStep (fun _ => 0) ⟨0, 1, 1, 0, 0, 1⟩ 0
          ⟨⟨0, 0, 3 / 2⟩, 1, ⟨0, 0, 0⟩, 1, ⟨1, 1, 1⟩, 0⟩) ∧
        respawnInvariant (laserComputeStep (fun _ => 0) ⟨0, 1, 1, 0, 0, 1⟩ 0
          ⟨⟨0, 0, 3 / 2⟩, 1, ⟨0, 0, 0⟩, 1, ⟨1, 1, 1⟩, 0⟩) ∧
        ((starComputeStep (fun _ => 0) ⟨0, 1, 1, 0, 0, 1⟩ 0
            ⟨⟨0, 0, 3 / 2⟩, ⟨0, 0, 0⟩, 1, 1⟩).position.z = 0 ∧
          |(starComputeStep (fun _ => 0) ⟨0, 1, 1, 0, 0, 1⟩ 0
              ⟨⟨0, 0, 3 / 2⟩, ⟨0, 0, 0⟩, 1, 1⟩).position.x| ≤ 2 ∧
          |(starComputeStep (fun _ => 0) ⟨0, 1, 1, 0, 0, 1⟩ 0
              ⟨⟨0, 0, 3 / 2⟩, ⟨0, 0, 0⟩, 1, 1⟩).position.y| ≤ 2 ∧
          (starComputeStep (fun _ => 0) ⟨0, 1, 1, 0, 0, 1⟩ 0
            ⟨⟨0, 0, 3 / 2⟩, ⟨0, 0, 0⟩, 1, 1⟩).life = 1)) :=
  ⟨⟨by decide, by norm_num [offScreen, stepPosition, dt]⟩,
    c1_bounded_respawn (fun _ => 0) ⟨0, 1, 1, 0, 0, 1⟩ 0
      ⟨⟨0, 0, 3 / 2⟩, 1, ⟨0, 0, 0⟩, 1, ⟨1, 1, 1⟩, 0⟩
      ⟨⟨0, 0, 3 / 2⟩, ⟨0, 0, 0⟩, 1, 1⟩ (by decide)
      (by norm_num [offScreen, stepPosition, dt]) (by norm_num [offScreen, stepPosition, dt])⟩

/-- C7. The state written by the respawn branch is a function of the
particle index alone: two firings of the branch for the same index agree
on position, velocity and life, whatever the elapsed time, the mouse
position, the resolution, the population count and the prior particle
state were, for both the Snowfield and the Laserfield compute shaders. -/
theorem c7_respawn_deterministic (sinF : ℚ → ℚ) (u1 u2 : Uniforms) (i : ℕ)
    (p1 p2 : SnowParticle) (hi1 : i < u1.count) (hi2 : i < u2.count)
    (hp1 : offScreen (stepPosition p1.position p1.velocity) = true)
    (hp2 : offScreen (stepPosition p2.position p2.velocity) = true) :
    ((snowComputeStep sinF u1 i p1).position = (snowComputeStep sinF u2 i p2).position ∧
      (snowComputeStep sinF u1 i p1).velocity = (snowComputeStep sinF u2 i p2).velocity ∧
      (snowComputeStep sinF u1 i p1).life = (snowComputeStep sinF u2 i p2).life) ∧
    ((laserComputeStep sinF u1 i p1).position = (laserComputeStep sinF u2 i p2).position ∧
      (laserComputeStep sinF u1 i p1).velocity = (laserComputeStep sinF u2 i p2).velocity ∧
      (laserComputeStep sinF u1 i p1).life = (laserComputeStep sinF u2 i p2).life) := by
  rw [snowComputeStep_respawn sinF u1 i p1 hi1 hp1, snowComputeStep_respawn sinF u2 i p2 hi2 hp2,
    laserComputeStep_respawn sinF u1 i p1 hi1 hp1, laserComputeStep_respawn sinF u2 i p2 hi2 hp2]
  exact ⟨⟨rfl, rfl, rfl⟩, ⟨rfl, rfl, rfl⟩⟩

/-- C7 witness: respawns of slot 0 under two different uniform blocks
(different time, resolution, mouse, count) and two different prior
particle states coincide on position, velocity and life. -/
theorem c7_respawn_deterministic_witness :
    (0 < 1 ∧ 0 < 7 ∧
      offScreen (stepPosition (⟨0, 0, 3 / 2⟩ : Vec3) (⟨0, 0, 0⟩ : Vec3)) = true ∧
      offScreen (stepPosition (⟨1 / 4, 0, 9 / 8⟩ : Vec3) (⟨0, 0, 0⟩ : Vec3)) = true) ∧
    ((snowComputeStep (fun _ => 0) ⟨0, 1, 1, 0, 0, 1⟩ 0
          ⟨⟨0, 0, 3 / 2⟩, 1, ⟨0, 0, 0⟩, 1, ⟨1, 1, 1⟩, 0⟩).position =
        (snowComputeStep (fun _ => 0) ⟨9, 2, 2, 1, 1, 7⟩ 0
          ⟨⟨1 / 4, 0, 9 / 8⟩, 2, ⟨0, 0, 0⟩, 1 / 2, ⟨1, 0, 0⟩, 3⟩).position ∧
      (snowComputeStep (fun _ => 0) ⟨0, 1, 1, 0, 0, 1⟩ 0
          ⟨⟨0, 0, 3 / 2⟩, 1, ⟨0, 0, 0⟩, 1, ⟨1, 1, 1⟩, 0⟩).velocity =
        (snowComputeStep (fun _ => 0) ⟨9, 2, 2, 1, 1, 7⟩ 0
          ⟨⟨1 / 4, 0, 9 / 8⟩, 2, ⟨0, 0, 0⟩, 1 / 2, ⟨1, 0, 0⟩, 3⟩).velocity ∧
      (snowComputeStep (fun _ => 0) ⟨0, 1, 1, 0, 0, 1⟩ 0
          ⟨⟨0, 0, 3 / 2⟩, 1, ⟨0, 0, 0⟩, 1, ⟨1, 1, 1⟩, 0⟩).life =
        (snowComputeStep (fun _ => 0) ⟨9, 2, 2, 1, 1, 7⟩ 0
          ⟨⟨1 / 4, 0, 9 / 8⟩, 2, ⟨0, 0, 0⟩, 1 / 2, ⟨1, 0, 0⟩, 3⟩).life) ∧
    ((laserComputeStep (fun _ => 0) ⟨0, 1, 1, 0, 0, 1⟩ 0
          ⟨⟨0, 0, 3 / 2⟩, 1, ⟨0, 0, 0⟩, 1, ⟨1, 1, 1⟩, 0⟩).position =
        (laserComputeStep (fun _ => 0) ⟨9, 2, 2, 1, 1, 7⟩ 0
          ⟨⟨1 / 4, 0, 9 / 8⟩, 2, ⟨0, 0, 0⟩, 1 / 2, ⟨1, 0, 0⟩, 3⟩).position ∧
      (laserComputeStep (fun _ => 0) ⟨0, 1, 1, 0, 0, 1⟩ 0
          ⟨⟨0, 0, 3 / 2⟩, 1, ⟨0, 0, 0⟩, 1, ⟨1, 1, 1⟩, 0⟩).velocity =
        (laserComputeStep (fun _ => 0) ⟨9, 2, 2, 1, 1, 7⟩ 0
          ⟨⟨1 / 4, 0, 9 / 8⟩, 2, ⟨0, 0, 0⟩, 1 / 2, ⟨1, 0, 0⟩, 3⟩).velocity ∧
      (laserComputeStep (fun _ => 0) ⟨0, 1, 1, 0, 0, 1⟩ 0
          ⟨⟨0, 0, 3 / 2⟩, 1, ⟨0, 0, 0⟩, 1, ⟨1, 1, 1⟩, 0⟩).life =
        (laserComputeStep (fun _ => 0) ⟨9, 2, 2, 1, 1, 7⟩ 0
          ⟨⟨1 / 4, 0, 9 / 8⟩, 2, ⟨0, 0, 0⟩, 1 / 2, ⟨1, 0, 0⟩, 3⟩).life) :=
  ⟨⟨by decide, by decide, by norm_num [offScreen, stepPosition, dt],
      by norm_num [offScreen, stepPosition, dt]⟩,
    (c7_respawn_deterministic (fun _ => 0) ⟨0, 1, 1, 0, 0, 1⟩ ⟨9, 2, 2, 1, 1, 7⟩ 0
        ⟨⟨0, 0, 3 / 2⟩, 1, ⟨0, 0, 0⟩, 1, ⟨1, 1, 1⟩, 0⟩
        ⟨⟨1 / 4, 0, 9 / 8⟩, 2, ⟨0, 0, 0⟩, 1 / 2, ⟨1, 0, 0⟩, 3⟩ (by decide) (by decide)
        (by norm_num [offScreen, stepPosition, dt])
        (by norm_num [offScreen, stepPosition, dt])).1,
    (c7_respawn_deterministic (fun _ => 0) ⟨0, 1, 1, 0, 0, 1⟩ ⟨9, 2, 2, 1, 1, 7⟩ 0
        ⟨⟨0, 0, 3 / 2⟩, 1, ⟨0, 0, 0⟩, 1, ⟨1, 1, 1⟩, 0⟩
        ⟨⟨1 / 4, 0, 9 / 8⟩, 2, ⟨0, 0, 0⟩, 1 / 2, ⟨1, 0, 0⟩, 3⟩ (by decide) (by decide)
        (by norm_num [offScreen, stepPosition, dt])
        (by norm_num [offScreen, stepPosition, dt])).2⟩

/-- C2. With prefersReducedMotion set, both versions of selectRenderer
assign the none tier and invoke no backend init routine, whatever every
other capability field, the GPU init outcome and the WebGL init outcome
are. -/
theorem c2_reduced_motion_none (c : DeviceCapabilities) (gpu : InitOutcome) (w : Bool)
    (h : c.prefersReducedMotion = true) :
    selectRenderer c gpu w = ⟨SelectOutcome.selected RendererType.none, []⟩ ∧
      selectRendererTS c gpu w = ⟨SelectOutcome.selected RendererType.none, []⟩ := by
  simp [selectRenderer, selectRendererTS, h]

/-- C2 witness: a capable, healthy-battery snapshot with reduced motion
preferred still selects the none tier with no inits. -/
theorem c2_reduced_motion_none_witness :
    (⟨false, false, true, true, true, some 1⟩ : DeviceCapabilities).prefersReducedMotion = true ∧
      (selectRenderer ⟨false, false, true, true, true, some 1⟩ InitOutcome.success false =
          ⟨SelectOutcome.selected RendererType.none, []⟩ ∧
        selectRendererTS ⟨false, false, true, true, true, some 1⟩ InitOutcome.success false =
          ⟨SelectOutcome.selected RendererType.none, []⟩) :=
  ⟨rfl, c2_reduced_motion_none ⟨false, false, true, true, true, some 1⟩ InitOutcome.success
    false rfl⟩

/-- C3. With reduced motion off and a known battery level strictly below
0.15, both versions of selectRenderer assign the css tier and initialize
only the css backend, whatever the remaining capability fields and init
outcomes are - in particular even when GPU compute is supported and the
device is high-end. -/
theorem c3_low_battery_css (c : DeviceCapabilities) (gpu : InitOutcome) (w : Bool) (b : ℚ)
    (hrm : c.prefersReducedMotion = false) (hb : c.batteryLevel = some b)
    (hlt : b < 3 / 20) :
    selectRenderer c gpu w = ⟨SelectOutcome.selected RendererType.css, [RendererType.css]⟩ ∧
      selectRendererTS c gpu w =
        ⟨SelectOutcome.selected RendererType.css, [RendererType.css]⟩ := by
  simp [selectRenderer, selectRendererTS, lowBattery, hrm, hb, hlt]

/-- C3 witness: a high-end desktop snapshot with GPU compute support and
battery level 0.1 selects the css tier in both versions. -/
theorem c3_low_battery_css_witness :
    ((⟨false, false, true, false, true, some (1 / 10)⟩ :
        DeviceCapabilities).prefersReducedMotion = false ∧
      (⟨false, false, true, false, true, some (1 / 10)⟩ :
        DeviceCapabilities).batteryLevel = some (1 / 10) ∧
      (1 : ℚ) / 10 < 3 / 20) ∧
    (selectRenderer ⟨false, false, true, false, true, some (1 / 10)⟩ InitOutcome.success false =
        ⟨SelectOutcome.selected RendererType.css, [RendererType.css]⟩ ∧
      selectRendererTS ⟨false, false, true, false, true, some (1 / 10)⟩ InitOutcome.success
          false =
        ⟨SelectOutcome.selected RendererType.css, [RendererType.css]⟩) :=
  ⟨⟨rfl, rfl, by norm_num⟩,
    c3_low_battery_css ⟨false, false, true, false, true, some (1 / 10)⟩ InitOutcome.success
      false (1 / 10) rfl rfl (by norm_num)⟩

/-- C4. In the part_003 selectRenderer, when reduced motion is off and the
battery rule does not fire and the GPU init did not succeed: a
non-mobile gpu-capable non-low-end device falls through to the webgl
tier (inits record the attempted webgpu init followed by the webgl init,
and no css init); and a mobile device with GPU compute unsupported or a
low-end profile gets the css tier. -/
theorem c4_gpu_fallthrough (c : DeviceCapabilities) (gpu : InitOutcome) (w : Bool)
    (hrm : c.prefersReducedMotion = false) (hbat : lowBattery c.batteryLevel = false)
    (hgpu : gpu ≠ InitOutcome.success) :
    (c.supportsWebGPU = true → c.isLowEnd = false → c.isMobile = false →
      selectRenderer c gpu false =
        ⟨SelectOutcome.selected RendererType.webgl,
          [RendererType.webgpu, RendererType.webgl]⟩) ∧
    (c.isMobile = true → (c.supportsWebGPU = false ∨ c.isLowEnd = true) →
      (selectRenderer c gpu w).outcome = SelectOutcome.selected RendererType.css) := by
  constructor
  · intro hs hl hm
    simp [selectRenderer, hrm, hbat, hs, hl, hm, hgpu]
  · intro hm hd
    rcases hd with hs | hl
    · simp [selectRenderer, hrm, hbat, hm, hs]
    · simp [selectRenderer, hrm, hbat, hm, hl]

/-- C4 witness: a desktop snapshot whose GPU init returned false lands on
the webgl tier after the attempted webgpu init, and a low-end mobile
snapshot without GPU compute lands on the css tier. -/
theorem c4_gpu_fallthrough_witness :
    ((⟨false, false, true, false, true, Option.none⟩ :
        DeviceCapabilities).prefersReducedMotion = false ∧
      lowBattery (⟨false, false, true, false, true, Option.none⟩ :
        DeviceCapabilities).batteryLevel = false ∧
      InitOutcome.failure ≠ InitOutcome.success) ∧
    selectRenderer ⟨false, false, true, false, true, Option.none⟩ InitOutcome.failure false =
      ⟨SelectOutcome.selected RendererType.webgl,
        [RendererType.webgpu, RendererType.webgl]⟩ ∧
    (selectRenderer ⟨true, true, false, false, false, Option.none⟩ InitOutcome.failure
        false).outcome = SelectOutcome.selected RendererType.css :=
  ⟨⟨rfl, rfl, by decide⟩,
    (c4_gpu_fallthrough ⟨false, false, true, false, true, Option.none⟩ InitOutcome.failure
        false rfl rfl (by decide)).1 rfl rfl rfl,
    (c4_gpu_fallthrough ⟨true, true, false, false, false, Option.none⟩ InitOutcome.failure
        false rfl rfl (by decide)).2 rfl (Or.inl rfl)⟩

/-- C10. A battery query that resolves with level exactly 0 or with a
non-numeric level leaves batteryLevel undefined (not defaulted to 1);
only a rejected query defaults it to 1; and with batteryLevel undefined
the low-battery rule is skipped, so a gpu-capable snapshot proceeds to
the webgpu tier even though 0 is below the 0.15 threshold. -/
theorem c10_battery_refinement (c : DeviceCapabilities) (w : Bool) (cur : Option ℚ)
    (hrm : c.prefersReducedMotion = false) (hb : c.batteryLevel = Option.none)
    (hs : c.supportsWebGPU = true) (hl : c.isLowEnd = false) :
    updateBatteryLevel Option.none (BatteryQuery.resolved (some 0)) = Option.none ∧
      updateBatteryLevel Option.none (BatteryQuery.resolved Option.none) = Option.none ∧
      updateBatteryLevel cur BatteryQuery.rejected = some 1 ∧
      selectRenderer c InitOutcome.success w =
        ⟨SelectOutcome.selected RendererType.webgpu, [RendererType.webgpu]⟩ := by
  refine ⟨by norm_num [updateBatteryLevel], rfl, rfl, ?_⟩
  simp [selectRenderer, lowBattery, hrm, hb, hs, hl]

/-- C10 witness: the battery facts together with the selection of the
webgpu tier for a desktop snapshot whose battery level stayed undefined. -/
theorem c10_battery_refinement_witness :
    ((⟨false, false, true, false, true, Option.none⟩ :
        DeviceCapabilities).prefersReducedMotion = false ∧
      (⟨false, false, true, false, true, Option.none⟩ :
        DeviceCapabilities).batteryLevel = Option.none ∧
      (⟨false, false, true, false, true, Option.none⟩ :
        DeviceCapabilities).supportsWebGPU = true ∧
      (⟨false, false, true, false, true, Option.none⟩ :
        DeviceCapabilities).isLowEnd = false) ∧
    (updateBatteryLevel Option.none (BatteryQuery.resolved (some 0)) = Option.none ∧
      updateBatteryLevel Option.none (BatteryQuery.resolved Option.none) = Option.none ∧
      updateBatteryLevel (some (1 / 2)) BatteryQuery.rejected = some 1 ∧
      selectRenderer ⟨false, false, true, false, true, Option.none⟩ InitOutcome.success false =
        ⟨SelectOutcome.selected RendererType.webgpu, [RendererType.webgpu]⟩) :=
  ⟨⟨rfl, rfl, rfl, rfl⟩,
    c10_battery_refinement ⟨false, false, true, false, true, Option.none⟩ false (some (1 / 2))
      rfl rfl rfl rfl⟩

/-- C5. Evaluation of the performance monitor at the claimed scenario:
starting from the webgpu tier, three consecutive bad windows (fps 25, 25,
10) each re-trigger fallbackToWebGL - the backend is destroyed and the
WebGL backend re-initialized three times - because fallbackToWebGL never
assigns currentRenderer, which stays webgpu; consequently the
fps < 20 branch to css can never fire after a GPU downgrade (cssInitCount
stays 0 even at fps 10). Even a direct webgl-tier window at fps 10
initializes css but leaves currentRenderer at webgl. -/
theorem c5_monitor_stuck_label :
    monitorWindow (monitorWindow (monitorWindow
        ⟨RendererType.webgpu, RendererType.webgpu, 0, 0, 0⟩ 25) 25) 10 =
      ⟨RendererType.webgpu, RendererType.webgl, 3, 3, 0⟩ ∧
    monitorWindow ⟨RendererType.webgl, RendererType.webgl, 0, 0, 0⟩ 10 =
      ⟨RendererType.webgl, RendererType.css, 1, 0, 1⟩ := by
  constructor <;> norm_num [monitorWindow, fallbackToWebGL, fallbackToCSS] <;> decide

/-- C6 counterexample to the claim as stated: no random outcome in 0..99
selects the Starfield variant in the part_003 manager, and none selects
the Laserfield variant in the graphics-manager.ts version, so the choice
is not among all three variants. -/
theorem c6_two_variants_only :
    ((List.range 100).all fun r => decide (chooseVariant r ≠ GPUVariant.starfield)) = true ∧
      ((List.range 100).all fun r => decide (chooseVariantTS r ≠ GPUVariant.laserfield)) =
        true := by
  decide

/-- C6 (amended). The variant choice is a 50/50 split between exactly two
variants, made fresh from the random draw at the decision point: the
part_003 manager picks the laserfield on draws 0..49 and the snowfield
otherwise, never the starfield; the graphics-manager.ts version picks the
starfield on draws 0..49 and the snowfield otherwise, never the
laserfield; each of the two reachable variants is chosen by exactly 50 of
the 100 draws. -/
theorem c6_fifty_fifty_two_variants :
    (∀ r : ℕ, chooseVariant r ≠ GPUVariant.starfield ∧
      (chooseVariant r = GPUVariant.laserfield ↔ r < 50) ∧
      (chooseVariant r = GPUVariant.snowfield ↔ 50 ≤ r)) ∧
    (∀ r : ℕ, chooseVariantTS r ≠ GPUVariant.laserfield ∧
      (chooseVariantTS r = GPUVariant.starfield ↔ r < 50) ∧
      (chooseVariantTS r = GPUVariant.snowfield ↔ 50 ≤ r)) ∧
    ((List.range 100).filter
      fun r => decide (chooseVariant r = GPUVariant.laserfield)).length = 50 ∧
    ((List.range 100).filter
      fun r => decide (chooseVariant r = GPUVariant.snowfield)).length = 50 ∧
    ((List.range 100).filter
      fun r => decide (chooseVariantTS r = GPUVariant.starfield)).length = 50 ∧
    ((List.range 100).filter
      fun r => decide (chooseVariantTS r = GPUVariant.snowfield)).length = 50 := by
  refine ⟨fun r => ?_, fun r => ?_, by decide, by decide, by decide, by decide⟩
  · by_cases h : r < 50 <;> simp [chooseVariant, h] <;> omega
  · by_cases h : r < 50 <;> simp [chooseVariantTS, h] <;> omega

/-- C8 counterexample to the claim as stated: the starfield storage
buffer uses a 32-byte record stride, outside the claimed 44-48 byte
range (an 800-star population allocates 25600 bytes). -/
theorem c8_star_stride_small :
    starStride = 32 ∧ ¬(44 ≤ starStride ∧ starStride ≤ 48) ∧
      starBufferSize 800 = 25600 := by
  decide

/-- C8 (amended). Every GPU backend allocates its particle storage buffer
as particleCount times its record stride; the stride is 48 bytes for the
Snowfield and Laserfield variants (within the claimed 44-48 range) and
32 bytes for the Starfield variant. -/
theorem c8_buffer_sizes (n : ℕ) :
    snowBufferSize n = n * snowStride ∧ laserBufferSize n = n * laserStride ∧
      starBufferSize n = n * starStride ∧ (44 ≤ snowStride ∧ snowStride ≤ 48) ∧
      (44 ≤ laserStride ∧ laserStride ≤ 48) ∧ starStride = 32 :=
  ⟨rfl, rfl, rfl, ⟨by decide, by decide⟩, ⟨by decide, by decide⟩, rfl⟩

/-- C9 counterexample to the claim as stated: the window
resize handler of the WebGL backend - event handling, not explicit reconfiguration - replaces
an 800-star population by a fresh 250-star one when the viewport width
drops below 768. -/
theorem c9_resize_changes_population :
    (List.replicate 800 starZero).length = 800 ∧
      (handleResizeStars (List.replicate 800 starZero) 500).length = 250 := by
  have hlen : (List.replicate 800 starZero).length = 800 := List.length_replicate ..
  have hcond : (List.replicate 800 starZero).length ≠ resizeStarCount 500 := by
    rw [hlen]
    decide
  refine ⟨hlen, ?_⟩
  unfold handleResizeStars
  rw [if_pos hcond, List.length_replicate]
  decide

/-- C9 (amended). The per-frame loop never resizes the population (the
CPU frame maps each star in place for any update function, and the GPU
dispatch rewrites each buffer slot in place), but the resize event handler
of the WebGL backend re-derives the population size from the viewport
width (250 below 768 pixels, 800 otherwise), reallocating whenever the
stored size differs. -/
theorem c9_population_stability (update : StarState → StarState) (stars : List StarState)
    (w : ℕ) (step : ℕ → SnowParticle → SnowParticle) (ps : List SnowParticle) :
    (frameStars update stars).length = stars.length ∧
      (gpuDispatch step ps).length = ps.length ∧
      (handleResizeStars stars w).length = resizeStarCount w := by
  refine ⟨by simp [frameStars], by unfold gpuDispatch; exact List.length_mapIdx, ?_⟩
  unfold handleResizeStars
  split
  · simp
  · rename_i h
    exact not_ne_iff.mp h

/-- C8 witness: the buffer-size facts evaluated at the desktop population
of 800 particles. -/
theorem c8_buffer_sizes_witness :
    snowBufferSize 800 = 800 * snowStride ∧ laserBufferSize 800 = 800 * laserStride ∧
      starBufferSize 800 = 800 * starStride ∧ (44 ≤ snowStride ∧ snowStride ≤ 48) ∧
      (44 ≤ laserStride ∧ laserStride ≤ 48) ∧ starStride = 32 :=
  c8_buffer_sizes 800

/-- C9 witness: the population-stability facts evaluated at a concrete
3-star population, the identity frame update, an empty GPU buffer and a
desktop viewport width. -/
theorem c9_population_stability_witness :
    (frameStars id (List.replicate 3 starZero)).length = (List.replicate 3 starZero).length ∧
      (gpuDispatch (fun _ p => p) []).length = ([] : List SnowParticle).length ∧
      (handleResizeStars (List.replicate 3 starZero) 1024).length = resizeStarCount 1024 :=
  c9_population_stability id (List.replicate 3 starZero) 1024 (fun _ p => p) []
